import Mathlib

/-!
Shallow embedding of the request-node gateway (src/src/requestNode.ts and
src/src/server.ts): the node lifecycle (the `initialized` flag and the
`initialize` method) and the express route table mounted by `mountRoutes`.

The implementation's readiness state is the single boolean field
`this.initialized`, set to `false` in the constructor (line 42) and to `true`
at line 100 after both backing calls succeed.  The spec's abstract states
`Uninitialized`, `Initializing` and `Failed` all map to `initialized = false`;
`Ready` maps to `initialized = true`.
-/

namespace RequestNode

/-- `NOT_FOUND_MESSAGE` constant from requestNode.ts lines 16-17. -/
def NOT_FOUND_MESSAGE : String :=
  "Not found\nAvailable endpoints:\n/POST persistTransaction\n/GET getTransactionsByChannelId\n/GET getChannelsByTopic"

/-- `NOT_INITIALIZED_MESSAGE` constant from requestNode.ts line 19. -/
def NOT_INITIALIZED_MESSAGE : String := "The node is not initialized"

/-- Status codes from the `http-status-codes` package used by requestNode.ts. -/
def OK : Nat := 200

/-- `httpStatus.SERVICE_UNAVAILABLE` from the `http-status-codes` package. -/
def SERVICE_UNAVAILABLE : Nat := 503

/-- `httpStatus.NOT_FOUND` from the `http-status-codes` package. -/
def NOT_FOUND : Nat := 404

/-- The value of `this.initialized` set by the constructor (line 42). -/
def initialState : Bool := false

/-- HTTP method of an inbound request.  The route table registers only GET and
POST handlers; `OTHER` stands for any further method, which falls through to
the 404 middleware. -/
inductive Method where
  | GET
  | POST
  | OTHER
deriving DecidableEq, Repr

/-- The three application route handlers imported by requestNode.ts
(lines 11-13); each one calls into the backing `dataAccess` layer. -/
inductive Handler where
  | persistTransaction
  | getTransactionsByChannelId
  | getChannelsByTopic
deriving DecidableEq, Repr

/-- An HTTP response: `serverResponse.status(s).send(body)`. -/
structure Response where
  status : Nat
  body : String
deriving DecidableEq, Repr

/-- Outcome of routing one request: either a response written directly by the
gate/middleware, or a dispatch into one of the three route handlers (which is
the only way any backing index client operation can be invoked). -/
inductive HandleResult where
  | response (r : Response)
  | dispatch (h : Handler)
deriving DecidableEq, Repr

/-- The route table mounted by `mountRoutes` (requestNode.ts lines 125-198),
in registration order: GET /healthz, GET /readyz, POST /persistTransaction,
GET /getTransactionsByChannelId, GET /getChannelsByTopic, then the catch-all
404 middleware.  `initialized` is the node's readiness flag read by the
readyz route and by each application-route gate. -/
def handleRequest (initialized : Bool) (m : Method) (p : String) : HandleResult :=
  if m = Method.GET ∧ p = "/healthz" then
    HandleResult.response ⟨OK, "OK"⟩
  else if m = Method.GET ∧ p = "/readyz" then
    if initialized then HandleResult.response ⟨OK, "OK"⟩
    else HandleResult.response ⟨SERVICE_UNAVAILABLE, NOT_INITIALIZED_MESSAGE⟩
  else if m = Method.POST ∧ p = "/persistTransaction" then
    if initialized then HandleResult.dispatch Handler.persistTransaction
    else HandleResult.response ⟨SERVICE_UNAVAILABLE, NOT_INITIALIZED_MESSAGE⟩
  else if m = Method.GET ∧ p = "/getTransactionsByChannelId" then
    if initialized then HandleResult.dispatch Handler.getTransactionsByChannelId
    else HandleResult.response ⟨SERVICE_UNAVAILABLE, NOT_INITIALIZED_MESSAGE⟩
  else if m = Method.GET ∧ p = "/getChannelsByTopic" then
    if initialized then HandleResult.dispatch Handler.getChannelsByTopic
    else HandleResult.response ⟨SERVICE_UNAVAILABLE, NOT_INITIALIZED_MESSAGE⟩
  else
    HandleResult.response ⟨NOT_FOUND, NOT_FOUND_MESSAGE⟩

/-- The method/path pairs for which `mountRoutes` registers a handler. -/
def isKnownRoute (m : Method) (p : String) : Prop :=
  (m = Method.GET ∧
    (p = "/healthz" ∨ p = "/readyz" ∨ p = "/getTransactionsByChannelId" ∨
      p = "/getChannelsByTopic")) ∨
  (m = Method.POST ∧ p = "/persistTransaction")

instance (m : Method) (p : String) : Decidable (isKnownRoute m p) := by
  unfold isKnownRoute; infer_instance

/-- The three application routes (the readiness-gated ones). -/
def isAppRoute (m : Method) (p : String) : Bool :=
  (m = Method.POST && p = "/persistTransaction") ||
  (m = Method.GET &&
    (p = "/getTransactionsByChannelId" || p = "/getChannelsByTopic"))

/-- Environment of one run of `initialize` (requestNode.ts lines 75-111):
the outcomes of the two backing calls `this.dataAccess.initialize()` and
`this.dataAccess.startAutoSynchronization()` (an `Except.error e` models the
call throwing `e`), and the two `Date.now()` readings. -/
structure InitEnv where
  initResult : Except String Unit
  syncResult : Except String Unit
  startTime : Nat
  endTime : Nat

/-- Observable events of one run of `initialize`, in program order.
`timeMetric d` models `logger.info` of the time-to-initialize message with
tags `['metric', 'initialization']`, carrying the measured duration
`endTime - startTime` in milliseconds (the source divides by 1000 for
display). `setInitialized b` models the assignment `this.initialized = b`. -/
inductive Event where
  | logInfo (msg : String)
  | logError (msg : String)
  | sleep (ms : Nat)
  | dataAccessInitialize
  | startAutoSynchronization
  | setInitialized (b : Bool)
  | timeMetric (durationMs : Nat)
deriving DecidableEq, Repr

/-- Whether an event is the timing-measurement emission. -/
def Event.isTimeMetric : Event → Bool
  | Event.timeMetric _ => true
  | _ => false

/-- Result of one run of `initialize`: the returned promise (an
`Except.error e` models a rejection with the rethrown backing error `e`),
the final value of `this.initialized`, and the trace of events. -/
structure InitRun where
  result : Except String Unit
  finalInitialized : Bool
  trace : List Event

/-- The `initialize` method (requestNode.ts lines 75-111), as a function of
the backing-call outcomes and of the incoming value of `this.initialized`:
log "Node initialization"; `await sleep(10000)`; `await
this.dataAccess.initialize()` — on a throw, log an error and rethrow;
`this.dataAccess.startAutoSynchronization()` — on a throw, log an error and
rethrow; set `this.initialized = true`; log "Node initialized"; emit the
timing metric.  The method never reads `this.initialized`. -/
def initializeNode (env : InitEnv) (initialized : Bool) : InitRun :=
  let pre : List Event :=
    [Event.logInfo "Node initialization", Event.sleep 10000,
      Event.dataAccessInitialize]
  match env.initResult with
  | Except.error e =>
      ⟨Except.error e, initialized,
        pre ++ [Event.logError "Node failed to initialize"]⟩
  | Except.ok _ =>
      match env.syncResult with
      | Except.error e =>
          ⟨Except.error e, initialized,
            pre ++ [Event.startAutoSynchronization,
              Event.logError "Node failed to start auto synchronization"]⟩
      | Except.ok _ =>
          ⟨Except.ok (), true,
            pre ++ [Event.startAutoSynchronization,
              Event.setInitialized true, Event.logInfo "Node initialized",
              Event.timeMetric (env.endTime - env.startTime)]⟩

/-- Whether an `Except` result is a success. -/
def succeeded : Except String Unit → Bool
  | Except.ok _ => true
  | Except.error _ => false

/-- The process owner (server.ts lines 42-45): `startNode().catch(error =>
process.exit(1))` — if `requestNode.initialize()` rejects, the process exits
with status 1; otherwise this core sets no exit code. -/
def startNodeExit (env : InitEnv) : Option Nat :=
  match (initializeNode env initialState).result with
  | Except.error _ => some 1
  | Except.ok _ => none

/-- One operation of this core acting on the readiness flag: a run of
`initialize`, or the handling of one inbound request.  Request handling only
reads `this.initialized` (requestNode.ts lines 147-197), so it leaves the
flag unchanged. -/
inductive Op where
  | init (env : InitEnv)
  | request (m : Method) (p : String)

/-- The readiness flag after one operation. -/
def stepState (s : Bool) : Op → Bool
  | Op.init env => (initializeNode env s).finalInitialized
  | Op.request _ _ => s

/-- Helper: with the readiness flag unset, every application route answers
503 with the not-initialized message. -/
theorem appRoute_not_initialized (m : Method) (p : String)
    (h : isAppRoute m p = true) :
    handleRequest false m p =
      HandleResult.response ⟨SERVICE_UNAVAILABLE, NOT_INITIALIZED_MESSAGE⟩ := by
  cases m
  case GET =>
    have hp : p = "/getTransactionsByChannelId" ∨ p = "/getChannelsByTopic" := by
      simpa [isAppRoute] using h
    rcases hp with hp | hp <;> subst hp <;> rfl
  case POST =>
    have hp : p = "/persistTransaction" := by simpa [isAppRoute] using h
    subst hp; rfl
  case OTHER =>
    simp [isAppRoute] at h

/-- Helper: the run of `initialize` succeeds exactly when both backing calls
do. -/
theorem initializeNode_result (env : InitEnv) (s : Bool) :
    succeeded (initializeNode env s).result =
      (succeeded env.initResult && succeeded env.syncResult) := by
  rcases env with ⟨ir, sr, st, et⟩
  cases ir <;> cases sr <;> rfl

/-- Helper: the final readiness flag is the prior flag joined with the
success of both backing calls. -/
theorem initializeNode_finalInitialized (env : InitEnv) (s : Bool) :
    (initializeNode env s).finalInitialized =
      (s || (succeeded env.initResult && succeeded env.syncResult)) := by
  rcases env with ⟨ir, sr, st, et⟩
  cases ir <;> cases sr <;> cases s <;> rfl

/-- Claim C1: for every inbound request to an application route (POST
/persistTransaction, GET /getTransactionsByChannelId, GET
/getChannelsByTopic), if the node is not initialized (the implementation of
`NodeState ≠ Ready`), the response is status 503 with the fixed body "The
node is not initialized", and the result is a direct response — never a
dispatch into a route handler, so neither the handler nor any backing index
client operation is invoked. -/
theorem C1_app_routes_gated_when_not_ready (m : Method) (p : String)
    (h : isAppRoute m p = true) :
    handleRequest false m p =
      HandleResult.response ⟨SERVICE_UNAVAILABLE, NOT_INITIALIZED_MESSAGE⟩ ∧
    ∀ hd : Handler, handleRequest false m p ≠ HandleResult.dispatch hd := by
  have hr := appRoute_not_initialized m p h
  exact ⟨hr, fun hd hcontra => by rw [hr] at hcontra; exact HandleResult.noConfusion hcontra⟩

/-- Witness for C1 at POST /persistTransaction. -/
theorem C1_witness :
    isAppRoute Method.POST "/persistTransaction" = true ∧
    handleRequest false Method.POST "/persistTransaction" =
      HandleResult.response ⟨SERVICE_UNAVAILABLE, NOT_INITIALIZED_MESSAGE⟩ :=
  ⟨by decide,
    (C1_app_routes_gated_when_not_ready Method.POST "/persistTransaction"
      (by decide)).1⟩

/-- Claim C2: starting from the freshly constructed state, when both backing
calls succeed, `initialize` performs exactly this sequence: it logs the start
of initialization (the `Initializing` phase — the readiness flag stays unset
throughout, as the trace position of `setInitialized true` shows), waits the
fixed 10000 ms warm-up delay, calls the backing `dataAccess.initialize()`,
then `startAutoSynchronization()`, and only then sets the readiness flag
(`Ready`), returning success. -/
theorem C2_initialize_sequence (env : InitEnv)
    (hi : env.initResult = Except.ok ()) (hs : env.syncResult = Except.ok ()) :
    initializeNode env initialState =
      ⟨Except.ok (), true,
        [Event.logInfo "Node initialization", Event.sleep 10000,
          Event.dataAccessInitialize, Event.startAutoSynchronization,
          Event.setInitialized true, Event.logInfo "Node initialized",
          Event.timeMetric (env.endTime - env.startTime)]⟩ := by
  rcases env with ⟨ir, sr, st, et⟩
  simp only at hi hs
  subst hi; subst hs
  rfl

/-- Witness for C2 with both backing calls succeeding. -/
theorem C2_witness :
    initializeNode ⟨Except.ok (), Except.ok (), 2, 9⟩ initialState =
      ⟨Except.ok (), true,
        [Event.logInfo "Node initialization", Event.sleep 10000,
          Event.dataAccessInitialize, Event.startAutoSynchronization,
          Event.setInitialized true, Event.logInfo "Node initialized",
          Event.timeMetric 7]⟩ :=
  C2_initialize_sequence ⟨Except.ok (), Except.ok (), 2, 9⟩ rfl rfl

/-- Claim C3: if the backing `initialize()` (or `startAutoSynchronization()`)
fails during startup, the run of `initialize` rethrows the backing error (the
fatal error propagates out of the lifecycle controller, and the process owner
of server.ts exits with status 1), the readiness flag stays at its initial
unset value — the implementation's rendering of the terminal `Failed` state —
and every subsequent application-route request still receives the 503
not-initialized response. -/
theorem C3_failure_is_fatal_and_node_stays_unready (env : InitEnv)
    (h : (succeeded env.initResult && succeeded env.syncResult) = false) :
    (∃ e : String, (initializeNode env initialState).result = Except.error e) ∧
    (initializeNode env initialState).finalInitialized = initialState ∧
    startNodeExit env = some 1 ∧
    (∀ m p, isAppRoute m p = true →
      handleRequest (initializeNode env initialState).finalInitialized m p =
        HandleResult.response ⟨SERVICE_UNAVAILABLE, NOT_INITIALIZED_MESSAGE⟩) := by
  rcases env with ⟨ir, sr, st, et⟩
  cases ir with
  | error e =>
      exact ⟨⟨e, rfl⟩, rfl, rfl, fun m p hmp => appRoute_not_initialized m p hmp⟩
  | ok u =>
      cases sr with
      | error e =>
          exact ⟨⟨e, rfl⟩, rfl, rfl, fun m p hmp => appRoute_not_initialized m p hmp⟩
      | ok v => simp [succeeded] at h

/-- Witness for C3 with a failing backing `initialize()` call. -/
theorem C3_witness :
    (succeeded (Except.error "backing chain unreachable" : Except String Unit) &&
      succeeded (Except.ok () : Except String Unit)) = false ∧
    startNodeExit ⟨Except.error "backing chain unreachable", Except.ok (), 0, 0⟩ =
      some 1 :=
  ⟨rfl,
    (C3_failure_is_fatal_and_node_stays_unready
      ⟨Except.error "backing chain unreachable", Except.ok (), 0, 0⟩ rfl).2.2.1⟩

/-- Claim C4: GET /readyz returns 200 "OK" exactly when the readiness flag is
set, and otherwise 503 with the fixed not-initialized body; the route is
served (answers with a response, never falls through to the 404 middleware)
in every state. -/
theorem C4_readyz_reflects_readiness (b : Bool) :
    handleRequest b Method.GET "/readyz" =
      (if b then HandleResult.response ⟨OK, "OK"⟩
       else HandleResult.response ⟨SERVICE_UNAVAILABLE, NOT_INITIALIZED_MESSAGE⟩) := by
  cases b <;> rfl

/-- Claim C5: the readiness flag never regresses.  First conjunct: the flag
after a run of `initialize` is the prior flag joined (Boolean or) with the
success of both backing calls — in particular once `true` it stays `true`.
Second conjunct: every operation of this core (an `initialize` run or the
handling of any request, which never writes the flag) yields the join of the
prior flag with what the operation would produce from the initial unset
state, so the state is monotone and never returns to unset once left. -/
theorem C5_state_never_regresses (env : InitEnv) (s : Bool) (op : Op) :
    (initializeNode env s).finalInitialized =
      (s || (succeeded env.initResult && succeeded env.syncResult)) ∧
    stepState s op = (s || stepState false op) := by
  refine ⟨initializeNode_finalInitialized env s, ?_⟩
  cases op with
  | init e =>
      simp [stepState, initializeNode_finalInitialized, Bool.or_assoc]
  | request m p => cases s <;> rfl

/-- Claim C6: GET /healthz always returns 200 "OK", independent of the
readiness flag — before, during and after initialization, and after a failed
initialization. -/
theorem C6_healthz_always_ok (b : Bool) :
    handleRequest b Method.GET "/healthz" = HandleResult.response ⟨OK, "OK"⟩ := rfl

set_option maxRecDepth 4000

/-- Claim C7: every request matching no registered route gets status 404 with
the fixed not-found body, regardless of the readiness flag; the body lists
each of the three application endpoints. -/
theorem C7_unknown_route_404 (b : Bool) (m : Method) (p : String)
    (h : ¬ isKnownRoute m p) :
    handleRequest b m p = HandleResult.response ⟨NOT_FOUND, NOT_FOUND_MESSAGE⟩ ∧
    "persistTransaction".data <:+: NOT_FOUND_MESSAGE.data ∧
    "getTransactionsByChannelId".data <:+: NOT_FOUND_MESSAGE.data ∧
    "getChannelsByTopic".data <:+: NOT_FOUND_MESSAGE.data := by
  have n1 : ¬(m = Method.GET ∧ p = "/healthz") := fun hc =>
    h (Or.inl ⟨hc.1, Or.inl hc.2⟩)
  have n2 : ¬(m = Method.GET ∧ p = "/readyz") := fun hc =>
    h (Or.inl ⟨hc.1, Or.inr (Or.inl hc.2)⟩)
  have n3 : ¬(m = Method.POST ∧ p = "/persistTransaction") := fun hc =>
    h (Or.inr hc)
  have n4 : ¬(m = Method.GET ∧ p = "/getTransactionsByChannelId") := fun hc =>
    h (Or.inl ⟨hc.1, Or.inr (Or.inr (Or.inl hc.2))⟩)
  have n5 : ¬(m = Method.GET ∧ p = "/getChannelsByTopic") := fun hc =>
    h (Or.inl ⟨hc.1, Or.inr (Or.inr (Or.inr hc.2))⟩)
  refine ⟨?_, by decide, by decide, by decide⟩
  simp only [handleRequest, if_neg n1, if_neg n2, if_neg n3, if_neg n4, if_neg n5]

/-- Witness for C7 at GET /foo in the uninitialized state. -/
theorem C7_witness :
    ¬ isKnownRoute Method.GET "/foo" ∧
    handleRequest false Method.GET "/foo" =
      HandleResult.response ⟨NOT_FOUND, NOT_FOUND_MESSAGE⟩ :=
  ⟨by decide, (C7_unknown_route_404 false Method.GET "/foo" (by decide)).1⟩

/-- Claim C8 counterexample: a run of `initialize` whose backing
`initialize()` call fails emits no timing measurement — the metric log sits
after the rethrow, on the success path only — so it is false that every run
emits one. -/
theorem C8_counterexample :
    ((initializeNode ⟨Except.error "no backing chain", Except.ok (), 0, 0⟩
        initialState).trace.any Event.isTimeMetric) = false := rfl

/-- Claim C8 as amended: every successful run of `initialize` emits the
timing measurement (a failing run emits none), and the emission is advisory:
two runs with the same backing outcomes but different clock readings have the
same result and the same final readiness flag, so the measurement never
affects control flow or node state. -/
theorem C8_timing_metric_advisory (env env₂ : InitEnv) (s : Bool)
    (h2i : env₂.initResult = env.initResult)
    (h2s : env₂.syncResult = env.syncResult) :
    (env.initResult = Except.ok () → env.syncResult = Except.ok () →
      (initializeNode env s).trace.any Event.isTimeMetric = true) ∧
    (succeeded (initializeNode env s).result = false →
      (initializeNode env s).trace.any Event.isTimeMetric = false) ∧
    (initializeNode env₂ s).result = (initializeNode env s).result ∧
    (initializeNode env₂ s).finalInitialized =
      (initializeNode env s).finalInitialized := by
  rcases env with ⟨ir, sr, st, et⟩
  rcases env₂ with ⟨ir2, sr2, st2, et2⟩
  simp only at h2i h2s
  subst h2i; subst h2s
  cases ir2 with
  | error e =>
      exact ⟨fun hi _ => by simp at hi, fun _ => rfl, rfl, rfl⟩
  | ok u =>
      cases sr2 with
      | error e => exact ⟨fun _ hs => by simp at hs, fun _ => rfl, rfl, rfl⟩
      | ok v =>
          exact ⟨fun _ _ => rfl,
            fun hbad => by simp [initializeNode, succeeded] at hbad, rfl, rfl⟩

/-- Witness for C8: a successful run emits the metric, and changing only the
clock readings leaves the result unchanged. -/
theorem C8_witness :
    (initializeNode ⟨Except.ok (), Except.ok (), 3, 10⟩ false).trace.any
        Event.isTimeMetric = true ∧
    (initializeNode ⟨Except.ok (), Except.ok (), 100, 250⟩ false).result =
      (initializeNode ⟨Except.ok (), Except.ok (), 3, 10⟩ false).result :=
  ⟨(C8_timing_metric_advisory ⟨Except.ok (), Except.ok (), 3, 10⟩
      ⟨Except.ok (), Except.ok (), 100, 250⟩ false rfl rfl).1 rfl rfl,
    (C8_timing_metric_advisory ⟨Except.ok (), Except.ok (), 3, 10⟩
      ⟨Except.ok (), Except.ok (), 100, 250⟩ false rfl rfl).2.2.1⟩

/-- Claim C9: `initialize` has no re-invocation guard and never reads the
readiness flag: a second call from the Ready state produces the same result
and the same trace as a first call — re-running the warm-up sleep and the
backing `initialize()` (first three trace events) and, when the backing calls
succeed, `startAutoSynchronization()` too, succeeding rather than failing
with a state error. -/
theorem C9_second_call_reruns_sequence (env : InitEnv) :
    (initializeNode env true).result = (initializeNode env initialState).result ∧
    (initializeNode env true).trace = (initializeNode env initialState).trace ∧
    (initializeNode env true).trace.take 3 =
      [Event.logInfo "Node initialization", Event.sleep 10000,
        Event.dataAccessInitialize] ∧
    (env.initResult = Except.ok () → env.syncResult = Except.ok () →
      (initializeNode env true).result = Except.ok () ∧
      Event.startAutoSynchronization ∈ (initializeNode env true).trace) := by
  rcases env with ⟨ir, sr, st, et⟩
  cases ir with
  | error e => exact ⟨rfl, rfl, rfl, fun hi _ => by simp at hi⟩
  | ok u =>
      cases sr with
      | error e => exact ⟨rfl, rfl, rfl, fun _ hs => by simp at hs⟩
      | ok v =>
          exact ⟨rfl, rfl, rfl, fun _ _ => ⟨rfl, by simp [initializeNode]⟩⟩

/-- Witness for C9: a second call after reaching Ready, with both backing
calls succeeding, succeeds and re-runs synchronization start. -/
theorem C9_witness :
    (initializeNode ⟨Except.ok (), Except.ok (), 0, 4⟩ true).result =
      Except.ok () ∧
    Event.startAutoSynchronization ∈
      (initializeNode ⟨Except.ok (), Except.ok (), 0, 4⟩ true).trace :=
  (C9_second_call_reruns_sequence ⟨Except.ok (), Except.ok (), 0, 4⟩).2.2.2 rfl rfl

/-- Claim C10: the readiness state is the single boolean `initialized`, so a
node whose initialization failed is indistinguishable at the HTTP surface
from one whose initialization never started: after any failed run of
`initialize` from the fresh state, the flag equals the constructor's initial
value, and every route (any method, any path) answers exactly as it did
before `initialize` was ever called. -/
theorem C10_failed_equals_uninitialized (env : InitEnv) (m : Method) (p : String)
    (h : succeeded (initializeNode env initialState).result = false) :
    (initializeNode env initialState).finalInitialized = initialState ∧
    handleRequest (initializeNode env initialState).finalInitialized m p =
      handleRequest initialState m p := by
  have hb : (succeeded env.initResult && succeeded env.syncResult) = false := by
    rw [← initializeNode_result env initialState]; exact h
  have hf := initializeNode_finalInitialized env initialState
  rw [hb] at hf
  have hfi : (initializeNode env initialState).finalInitialized = initialState := by
    simpa [initialState] using hf
  exact ⟨hfi, by rw [hfi]⟩

/-- Witness for C10 at GET /readyz after a failed backing `initialize()`. -/
theorem C10_witness :
    succeeded (initializeNode ⟨Except.error "boom", Except.ok (), 0, 0⟩
        initialState).result = false ∧
    handleRequest (initializeNode ⟨Except.error "boom", Except.ok (), 0, 0⟩
        initialState).finalInitialized Method.GET "/readyz" =
      handleRequest initialState Method.GET "/readyz" :=
  ⟨rfl,
    (C10_failed_equals_uninitialized ⟨Except.error "boom", Except.ok (), 0, 0⟩
      Method.GET "/readyz" rfl).2⟩

end RequestNode
